import Mathlib

/-!
Verification of the delayed-notification scheduler of the telegram bot
(`src/main.py`) against its natural-language specification.

The reminder subsystem is shallowly embedded:

* the `reminders` SQLite table becomes a `List ReminderRow` (insertion order =
  rowid order); `remind_at` is kept as the stored TEXT column;
* the in-process job queue (`app.job_queue`) becomes a `List Job`;
  `run_once` appends a job — python-telegram-bot's `JobQueue.run_once`
  always creates a fresh job and never de-duplicates by name, and
  `get_jobs_by_name` returns every job carrying the name;
* timestamps are modelled as `Int` seconds; the `float` returned by
  `total_seconds()` loses nothing that the claims depend on;
* the external transport (`bot.send_message`) either returns or raises, so
  the dispatcher is parametrised by an `Except String Unit` outcome;
* `datetime.fromisoformat` (Python stdlib, applied to the persisted TEXT
  column during recovery) is parametrised as `String → Option Int`:
  `none` models a raised `ValueError`;
* `datetime.strptime` with the fixed format `"%Y-%m-%d %H:%M"` is modelled
  in full, following CPython `_strptime`, which compiles the format to the
  regex
  `(\d\d\d\d)-(1[0-2]|0[1-9]|[1-9])-(3[01]|[12]\d|0[1-9]|[1-9])\s+(2[0-3]|[0-1]\d|\d):([0-5]\d|\d)`
  (whitespace in the format becomes `\s+`), requires the match to consume
  the whole string (`unconverted data remains` otherwise), and then runs the
  `datetime` constructor, which validates the calendar date and the year
  lower bound.  The model restricts `\d` to ASCII digits.
-/

namespace TgBot

/-- A row of the `reminders` table
(`id, user_id, remind_at, text, created_at`); `remind_at` is the TEXT
column holding `datetime.isoformat()` output. -/
structure ReminderRow where
  id : Nat
  user_id : Nat
  remind_at : String
  text : String
  created_at : String
  deriving DecidableEq, Repr

/-- The `data` dict passed to `job_queue.run_once` in `schedule_reminder`. -/
structure JobData where
  reminder_id : Nat
  user_id : Nat
  text : String
  deriving DecidableEq, Repr

/-- An armed timer in the job queue: the job name, the delay (seconds) it was
armed with, and its captured data. -/
structure Job where
  name : String
  delay : Int
  data : JobData
  deriving DecidableEq, Repr

/-- `app.job_queue.run_once(reminder_job, delay, name=…, data=…)`: always
creates a fresh job; existing jobs (even with the same name) are untouched. -/
def run_once (jobs : List Job) (name : String) (delay : Int) (data : JobData) :
    List Job :=
  jobs ++ [⟨name, delay, data⟩]

/-- `job_queue.get_jobs_by_name(name)`: every job currently carrying `name`. -/
def get_jobs_by_name (jobs : List Job) (name : String) : List Job :=
  jobs.filter (fun j => j.name == name)

/-- `schedule_reminder(app, reminder_id, user_id, text, remind_at)`:
`delay = max(0, (remind_at - now_utc()).total_seconds())`, then
`run_once` with name `f"reminder_{reminder_id}"`. -/
def schedule_reminder (jobs : List Job) (now : Int) (reminder_id user_id : Nat)
    (text : String) (remind_at : Int) : List Job :=
  run_once jobs ("reminder_" ++ toString reminder_id) (max 0 (remind_at - now))
    ⟨reminder_id, user_id, text⟩

/-- `DELETE FROM reminders WHERE id = ?`. -/
def delete_reminder (db : List ReminderRow) (rid : Nat) : List ReminderRow :=
  db.filter (fun r => !(r.id == rid))

/-- `reminder_job(context)`: awaits `bot.send_message` (the external
transport; `sendResult` is its outcome, `.error` modelling a raised
exception), and only then deletes the row.  A raised send propagates out of
the job callback before the `DELETE` statement is reached. -/
def reminder_job (sendResult : Except String Unit) (db : List ReminderRow)
    (data : JobData) : Except String (List ReminderRow) :=
  match sendResult with
  | .error e => .error e
  | .ok _ => .ok (delete_reminder db data.reminder_id)

/-- The `reminders` table after a fired timer ran `reminder_job`: the job's
exception (if any) is swallowed by the surrounding framework, so on `.error`
the table is simply left as it was. -/
def reminder_job_table (sendResult : Except String Unit) (db : List ReminderRow)
    (data : JobData) : List ReminderRow :=
  match reminder_job sendResult db data with
  | .ok db2 => db2
  | .error _ => db

/-- Decimal value of a digit string, accumulated left to right: models
Python `int(target)` on an all-digit string. -/
def strToNatAux : List Char → Nat → Nat
  | [], acc => acc
  | c :: cs, acc => strToNatAux cs (acc * 10 + (c.toNat - 48))

/-- Models `int(target)` for an ASCII digit string. -/
def strToNat (s : String) : Nat :=
  strToNatAux s.data 0

/-- ASCII model of Python `str.isdigit()` (nonempty, all digits). -/
def pyIsdigit (s : String) : Bool :=
  !(s.data.isEmpty) && s.data.all Char.isDigit

/-- The reply `remind_cancel` sends back to the chat. -/
inductive CancelReply
  | usage
  | canceled
  | notFound
  deriving DecidableEq, Repr

/-- `remind_cancel(update, context)` for caller `caller` with argument string
`target`: rejects a non-numeric target; otherwise deletes rows matching
`user_id = caller AND id = rid` (owner-scoped), then — unconditionally, and
regardless of whether any row was deleted — removes every job named
`f"reminder_{rid}"`, and finally reports `canceled` or `notFound` from the
`DELETE` rowcount. -/
def remind_cancel (caller : Nat) (target : String) (db : List ReminderRow)
    (jobs : List Job) : List ReminderRow × List Job × CancelReply :=
  if target == "" || !(pyIsdigit target) then (db, jobs, .usage)
  else
    (db.filter (fun r => !(r.user_id == caller && r.id == strToNat target)),
     jobs.filter (fun j => !(j.name == "reminder_" ++ toString (strToNat target))),
     if db.countP (fun r => r.user_id == caller && r.id == strToNat target) != 0
     then .canceled else .notFound)

/-- `schedule_pending_reminders(app)`: reads all rows, then for each row runs
`dt.datetime.fromisoformat(row["remind_at"])` (modelled by the `fromiso`
parameter, `none` = raised `ValueError`), skips rows with `remind_at < now`,
and arms the rest via `schedule_reminder`.  The loop body has no exception
handler, so a `ValueError` propagates: the function returns the jobs armed so
far together with `some badString` identifying the raising row; the store is
never written. -/
def schedule_pending_reminders (fromiso : String → Option Int) (now : Int) :
    List ReminderRow → List Job → List Job × Option String
  | [], jobs => (jobs, none)
  | row :: rest, jobs =>
    match fromiso row.remind_at with
    | none => (jobs, some row.remind_at)
    | some t =>
      if t < now then schedule_pending_reminders fromiso now rest jobs
      else
        schedule_pending_reminders fromiso now rest
          (schedule_reminder jobs now row.id row.user_id row.text t)

/-- The jobs an abort-free recovery pass arms for the rows of `db`. -/
def recJobs (fromiso : String → Option Int) (now : Int)
    (db : List ReminderRow) : List Job :=
  db.filterMap (fun r =>
    (fromiso r.remind_at).bind (fun t =>
      if t < now then none
      else some ⟨"reminder_" ++ toString r.id, max 0 (t - now),
        ⟨r.id, r.user_id, r.text⟩⟩))

/-- `remind_list`:
`SELECT id, remind_at, text FROM reminders WHERE user_id = ? ORDER BY remind_at`.
SQLite compares the TEXT column bytewise, which on UTF-8 agrees with Lean's
`String` order (and, on the canonical `isoformat()` strings the bot writes,
with chronological order).  The sort is modelled by `mergeSort`; the claim
only depends on the output being ordered, not on tie order. -/
def remind_list (uid : Nat) (db : List ReminderRow) : List ReminderRow :=
  (db.filter (fun r => r.user_id == uid)).mergeSort
    (fun a b => decide (a.remind_at ≤ b.remind_at))

/-! ### The `parse_remind_time` model (CPython `strptime`, format
`"%Y-%m-%d %H:%M"`) -/

/-- Value of an ASCII digit character. -/
def digitVal (c : Char) : Nat :=
  c.toNat - 48

/-- The ASCII digit with value `n` (callers keep `n ≤ 9`). -/
def digitChar : Nat → Char
  | 0 => '0'
  | 1 => '1'
  | 2 => '2'
  | 3 => '3'
  | 4 => '4'
  | 5 => '5'
  | 6 => '6'
  | 7 => '7'
  | 8 => '8'
  | _ => '9'

/-- The code points Python's `re` treats as `\s` on `str` (the `str.isspace`
set). -/
def isPySpace (c : Char) : Bool :=
  [9, 10, 11, 12, 13, 28, 29, 30, 31, 32, 133, 160, 5760,
   8192, 8193, 8194, 8195, 8196, 8197, 8198, 8199, 8200, 8201, 8202,
   8232, 8233, 8239, 8287, 12288].contains c.toNat

/-- A two-digit field whose value lies in `[lo, hi]`.  Each of the two-digit
alternations in the `_strptime` regex (`1[0-2]|0[1-9]` for `%m`,
`3[01]|[12]\d|0[1-9]` for `%d`, `2[0-3]|[0-1]\d` for `%H`, `[0-5]\d` for
`%M`) matches exactly the two-digit strings whose value is in the field's
range, so the range check is a faithful encoding. -/
def p2Field (lo hi : Nat) : List Char → Option (Nat × List Char)
  | a :: b :: rest =>
    if a.isDigit && b.isDigit && decide (lo ≤ 10 * digitVal a + digitVal b) &&
        decide (10 * digitVal a + digitVal b ≤ hi) then
      some (10 * digitVal a + digitVal b, rest)
    else none
  | _ => none

/-- A one-digit field whose value lies in `[lo, hi]` (the final `[1-9]` or
`\d` alternative of each field's regex). -/
def p1Field (lo hi : Nat) : List Char → Option (Nat × List Char)
  | a :: rest =>
    if a.isDigit && decide (lo ≤ digitVal a) && decide (digitVal a ≤ hi) then
      some (digitVal a, rest)
    else none
  | _ => none

/-- `%Y`: exactly four digits (`\d\d\d\d`). -/
def pYear : List Char → Option (Nat × List Char)
  | a :: b :: c :: d :: rest =>
    if a.isDigit && b.isDigit && c.isDigit && d.isDigit then
      some (1000 * digitVal a + 100 * digitVal b + 10 * digitVal c + digitVal d,
        rest)
    else none
  | _ => none

/-- The literal `-` separator. -/
def expectDash : List Char → Option (List Char)
  | c :: rest => if c == '-' then some rest else none
  | [] => none

/-- `%m` via its one-digit alternative `[1-9]`, followed by `-`. -/
def pMonth1Dash (cs : List Char) : Option (Nat × List Char) :=
  match p1Field 1 9 cs with
  | some (v, c :: rest) => if c == '-' then some (v, rest) else none
  | _ => none

/-- `%m` followed by the literal `-`: the regex tries the two-digit
alternatives first and backtracks to `[1-9]` when the following `-` does not
match. -/
def pMonthDash (cs : List Char) : Option (Nat × List Char) :=
  match p2Field 1 12 cs with
  | some (v, c :: rest) => if c == '-' then some (v, rest) else pMonth1Dash cs
  | _ => pMonth1Dash cs

/-- `%d` via its one-digit alternative `[1-9]`, followed by `\s+`. -/
def pDay1Spaces (cs : List Char) : Option (Nat × List Char) :=
  match p1Field 1 9 cs with
  | some (v, c :: rest) =>
    if isPySpace c then some (v, rest.dropWhile isPySpace) else none
  | _ => none

/-- `%d` followed by `\s+` (the literal space of the format is compiled to
`\s+` by `TimeRE.pattern`): two-digit alternatives first, then `[1-9]`. -/
def pDaySpaces (cs : List Char) : Option (Nat × List Char) :=
  match p2Field 1 31 cs with
  | some (v, c :: rest) =>
    if isPySpace c then some (v, rest.dropWhile isPySpace) else pDay1Spaces cs
  | _ => pDay1Spaces cs

/-- `%H` via its one-digit alternative `\d`, followed by `:`. -/
def pHour1Colon (cs : List Char) : Option (Nat × List Char) :=
  match p1Field 0 9 cs with
  | some (v, c :: rest) => if c == ':' then some (v, rest) else none
  | _ => none

/-- `%H` followed by the literal `:`. -/
def pHourColon (cs : List Char) : Option (Nat × List Char) :=
  match p2Field 0 23 cs with
  | some (v, c :: rest) => if c == ':' then some (v, rest) else pHour1Colon cs
  | _ => pHour1Colon cs

/-- `%M` via its one-digit alternative `\d`, ending the string. -/
def pMin1End (cs : List Char) : Option Nat :=
  match p1Field 0 9 cs with
  | some (v, []) => some v
  | _ => none

/-- `%M` ending the string: `strptime` raises `unconverted data remains`
when the regex match does not consume the whole input, so a successful parse
must end exactly here. -/
def pMinuteEnd (cs : List Char) : Option Nat :=
  match p2Field 0 59 cs with
  | some (v, []) => some v
  | _ => pMin1End cs

/-- The full regex match for `"%Y-%m-%d %H:%M"`, yielding
`(year, month, day, hour, minute)`. -/
def parseFields (cs : List Char) : Option (Nat × Nat × Nat × Nat × Nat) :=
  match pYear cs with
  | none => none
  | some (y, cs1) =>
    match expectDash cs1 with
    | none => none
    | some cs2 =>
      match pMonthDash cs2 with
      | none => none
      | some (m, cs3) =>
        match pDaySpaces cs3 with
        | none => none
        | some (d, cs4) =>
          match pHourColon cs4 with
          | none => none
          | some (h, cs5) =>
            match pMinuteEnd cs5 with
            | none => none
            | some mi => some (y, m, d, h, mi)

/-- Gregorian leap year, as in Python's `calendar.isleap`. -/
def isLeap (y : Nat) : Bool :=
  y % 4 == 0 && (y % 100 != 0 || y % 400 == 0)

/-- Length of a month, as validated by the `datetime` constructor. -/
def daysInMonth (y m : Nat) : Nat :=
  if m == 2 then (if isLeap y then 29 else 28)
  else if m == 4 || m == 6 || m == 9 || m == 11 then 30
  else 31

/-- The only timezone object the bot ever constructs (`dt.timezone.utc`). -/
inductive Tz
  | utc
  deriving DecidableEq, Repr

/-- A Python `datetime.datetime` as used by the bot: `tzinfo = none` is a
naive datetime. -/
structure PyDatetime where
  year : Nat
  month : Nat
  day : Nat
  hour : Nat
  minute : Nat
  second : Nat
  microsecond : Nat
  tzinfo : Option Tz
  deriving DecidableEq, Repr

/-- `dt.datetime.strptime(raw, DATETIME_FMT)` with
`DATETIME_FMT = "%Y-%m-%d %H:%M"`, returning `none` for a raised
`ValueError`.  After the regex match, the `datetime` constructor re-checks
`MINYEAR ≤ year` and `day ≤ days_in_month` (the other constructor bounds are
already enforced by the regex); no `%S`/`%f` directive appears, so second
and microsecond default to 0 and the result is naive. -/
def strptime (raw : String) : Option PyDatetime :=
  match parseFields raw.data with
  | none => none
  | some (y, m, d, h, mi) =>
    if 1 ≤ y ∧ 1 ≤ d ∧ d ≤ daysInMonth y m then
      some ⟨y, m, d, h, mi, 0, 0, none⟩
    else none

/-- `parse_remind_time(raw)`: `strptime` under a `try/except ValueError`,
then `parsed.replace(tzinfo=dt.timezone.utc)`. -/
def parse_remind_time (raw : String) : Option PyDatetime :=
  match strptime raw with
  | none => none
  | some t => some { t with tzinfo := some Tz.utc }

/-- Follows the spec's words: the typographic shape `YYYY-MM-DD HH:MM`
(zero-padded digit groups separated by the literal `-`, `-`, space, `:`). -/
def matchesFmtShape (s : String) : Bool :=
  match s.data with
  | [y1, y2, y3, y4, a, m1, m2, b, d1, d2, c, h1, h2, e, n1, n2] =>
    y1.isDigit && y2.isDigit && y3.isDigit && y4.isDigit && a == '-' &&
    m1.isDigit && m2.isDigit && b == '-' && d1.isDigit && d2.isDigit &&
    c == ' ' && h1.isDigit && h2.isDigit && e == ':' && n1.isDigit && n2.isDigit
  | _ => false

/-- Two zero-padded ASCII digits. -/
def pad2 (n : Nat) : List Char :=
  [digitChar (n / 10 % 10), digitChar (n % 10)]

/-- Four zero-padded ASCII digits. -/
def pad4 (n : Nat) : List Char :=
  [digitChar (n / 1000 % 10), digitChar (n / 100 % 10),
   digitChar (n / 10 % 10), digitChar (n % 10)]

/-- The canonical zero-padded `YYYY-MM-DD HH:MM` rendering of a date-time. -/
def renderPadded (y m d h mi : Nat) : String :=
  ⟨pad4 y ++ '-' :: (pad2 m ++ '-' :: (pad2 d ++ ' ' :: (pad2 h ++ ':' :: pad2 mi)))⟩

/-- Python `str.strip()` (strips the `str.isspace` set from both ends). -/
def pyStrip (s : String) : String :=
  ⟨((s.data.dropWhile isPySpace).reverse.dropWhile isPySpace).reverse⟩

/-- `datetime.isoformat()` for the aware, microsecond-free datetimes the bot
stores: `YYYY-MM-DDTHH:MM:SS+00:00`. -/
def pyIsoformat (t : PyDatetime) : String :=
  ⟨pad4 t.year ++ '-' :: (pad2 t.month ++ '-' :: (pad2 t.day ++ 'T' ::
    (pad2 t.hour ++ ':' :: (pad2 t.minute ++ ':' ::
      (pad2 t.second ++ ('+' :: '0' :: '0' :: ':' :: '0' :: ['0']))))))⟩

/-- Days since the Unix epoch of a civil date (Howard Hinnant's
`days_from_civil`), modelling `datetime.timestamp()`'s day count. -/
def daysFromCivil (y m d : Int) : Int :=
  let y2 := if m ≤ 2 then y - 1 else y
  let era := (if 0 ≤ y2 then y2 else y2 - 399) / 400
  let yoe := y2 - era * 400
  let doy := (153 * ((m + 9) % 12) + 2) / 5 + d - 1
  let doe := yoe * 365 + yoe / 4 - yoe / 100 + doy
  era * 146097 + doe - 719468

/-- POSIX timestamp (seconds) of an aware UTC `PyDatetime`: the value
`(remind_at - now_utc()).total_seconds()` differences are computed from. -/
def dtTimestamp (t : PyDatetime) : Int :=
  86400 * daysFromCivil t.year t.month t.day +
    3600 * t.hour + 60 * t.minute + t.second

/-- The reply `remind_add` sends back to the chat. -/
inductive AddReply
  | usage
  | noText
  | badTime
  | ok
  deriving DecidableEq, Repr

/-- `remind_add(update, context)`: needs at least two args (date and time),
joins `args[:2]` as the due-time string and `args[2:]` (stripped) as the
text; rejects empty text, then an unparseable due-time; only then INSERTs
the row (AUTOINCREMENT id = `nextId`) and arms the timer. -/
def remind_add (now : Int) (nowIso : String) (uid : Nat) (args : List String)
    (db : List ReminderRow) (jobs : List Job) (nextId : Nat) :
    List ReminderRow × List Job × AddReply :=
  if args.length < 2 then (db, jobs, .usage)
  else if pyStrip (String.intercalate " " (args.drop 2)) = "" then
    (db, jobs, .noText)
  else
    match parse_remind_time (String.intercalate " " (args.take 2)) with
    | none => (db, jobs, .badTime)
    | some t =>
      (db ++ [⟨nextId, uid, pyIsoformat t,
        pyStrip (String.intercalate " " (args.drop 2)), nowIso⟩],
       schedule_reminder jobs now nextId uid
         (pyStrip (String.intercalate " " (args.drop 2))) (dtTimestamp t),
       .ok)

/-! ## Theorems -/

/-! ### C1 — dispatch deletes the row regardless of delivery outcome -/

/-- C1 counterexample: with one stored reminder (id 1) whose timer fires and
whose transport send raises, the row is NOT deleted — the table after the
dispatch still equals the original table, so a failed delivery does not reach
the `DELETED` state, contrary to the claim. -/
theorem reminder_job_failed_send_keeps_row :
    reminder_job_table (Except.error "network down")
        [⟨1, 7, "2099-01-01T00:00:00+00:00", "standup", "c"⟩]
        ⟨1, 7, "standup"⟩ =
      [⟨1, 7, "2099-01-01T00:00:00+00:00", "standup", "c"⟩] ∧
    reminder_job (Except.error "network down")
        [⟨1, 7, "2099-01-01T00:00:00+00:00", "standup", "c"⟩]
        ⟨1, 7, "standup"⟩ = Except.error "network down" :=
  ⟨rfl, rfl⟩

/-- C1 (amended): `reminder_job` deletes the reminder's row only when the
transport send succeeds; when the send raises, the exception propagates
before the `DELETE` statement and the table is left unchanged (the failed
reminder stays in the store). -/
theorem reminder_job_deletes_only_on_success (db : List ReminderRow)
    (data : JobData) :
    (∀ e, reminder_job_table (Except.error e) db data = db) ∧
    (∀ r, r ∈ reminder_job_table (Except.ok ()) db data →
      r.id ≠ data.reminder_id) := by
  constructor
  · intro e
    rfl
  · intro r hr
    have : r ∈ db.filter (fun r => !(r.id == data.reminder_id)) := hr
    have h2 := List.of_mem_filter this
    simpa using h2

/-- C1 witness: instantiates the amended theorem at a concrete table. -/
theorem reminder_job_deletes_only_on_success_witness :
    reminder_job_table (Except.error "net") [⟨2, 5, "T", "y", "c"⟩] ⟨1, 5, "y"⟩ =
      [⟨2, 5, "T", "y", "c"⟩] ∧ (2 : Nat) ≠ 1 :=
  ⟨(reminder_job_deletes_only_on_success [⟨2, 5, "T", "y", "c"⟩] ⟨1, 5, "y"⟩).1 "net",
   (reminder_job_deletes_only_on_success [⟨2, 5, "T", "y", "c"⟩] ⟨1, 5, "y"⟩).2
     ⟨2, 5, "T", "y", "c"⟩ (by decide)⟩

/-! ### C2 — at most one armed timer per id / idempotent arming -/

/-- C2 counterexample: arming the same reminder id twice (as a duplicate
recovery pass would) leaves TWO jobs named `"reminder_1"` in the queue —
`run_once` never cancels an existing job, so arming is not idempotent and the
at-most-one-timer claim fails. -/
theorem schedule_reminder_double_arm_two_timers :
    ¬ (get_jobs_by_name
        (schedule_reminder (schedule_reminder [] 0 1 7 "hi" 100) 0 1 7 "hi" 100)
        "reminder_1").length ≤ 1 := by
  decide

/-- C2 (amended): `schedule_reminder` unconditionally appends a fresh job and
never cancels an existing one: the number of armed timers carrying the
reminder's name always grows by exactly one, so a duplicate arming yields a
duplicate timer. -/
theorem schedule_reminder_appends_timer (jobs : List Job) (now : Int)
    (rid uid : Nat) (text : String) (remind_at : Int) :
    (get_jobs_by_name (schedule_reminder jobs now rid uid text remind_at)
        ("reminder_" ++ toString rid)).length =
      (get_jobs_by_name jobs ("reminder_" ++ toString rid)).length + 1 := by
  simp [get_jobs_by_name, schedule_reminder, run_once, List.filter_append]

/-! ### C5 — arming delay is max(0, due − now) and past due times still arm -/

/-- C5: `schedule_reminder` always registers exactly one new timer, with
delay `max 0 (remind_at − now)`; the delay is never negative, and a due time
at or before `now` arms with delay 0 rather than being skipped. -/
theorem schedule_reminder_delay_clamped (jobs : List Job) (now remind_at : Int)
    (rid uid : Nat) (text : String) :
    schedule_reminder jobs now rid uid text remind_at =
      jobs ++ [⟨"reminder_" ++ toString rid, max 0 (remind_at - now), ⟨rid, uid, text⟩⟩] ∧
    (0 : Int) ≤ max 0 (remind_at - now) ∧
    (remind_at ≤ now → max (0 : Int) (remind_at - now) = 0) := by
  refine ⟨rfl, le_max_left 0 _, fun h => ?_⟩
  apply max_eq_left
  omega

/-- C5 witness: a due time 2 seconds in the past arms with delay 0. -/
theorem schedule_reminder_delay_clamped_witness :
    schedule_reminder [] 5 1 2 "t" 3 =
      [] ++ [⟨"reminder_" ++ toString 1, max 0 (3 - 5), ⟨1, 2, "t"⟩⟩] ∧
    max (0 : Int) (3 - 5) = 0 :=
  ⟨(schedule_reminder_delay_clamped [] 5 3 1 2 "t").1,
   (schedule_reminder_delay_clamped [] 5 3 1 2 "t").2.2 (by decide)⟩

/-! ### C6 — cancellation is owner-scoped -/

/-- C6 counterexample: user 1 cancels reminder id 1 that belongs to user 2.
The row survives and "not found" is reported, but the armed timer for user
2's reminder IS removed from the queue — contradicting the claim that a
cancellation by a non-owner does not disarm the timer of another user's
reminder. -/
theorem remind_cancel_disarms_other_users_timer :
    remind_cancel 1 "1" [⟨1, 2, "T", "secret", "c"⟩]
        [⟨"reminder_1", 50, ⟨1, 2, "secret"⟩⟩] =
      ([⟨1, 2, "T", "secret", "c"⟩], [], CancelReply.notFound) ∧
    ([⟨"reminder_1", 50, ⟨1, 2, "secret"⟩⟩] : List Job) ≠ [] := by
  decide

/-- Shared evaluation lemma: a numeric cancel request whose id matches no row
of the caller leaves the store unchanged, filters the job queue by the
reminder's name, and reports "not found". -/
theorem remind_cancel_unowned_eq (caller : Nat) (target : String)
    (db : List ReminderRow) (jobs : List Job)
    (hdig : pyIsdigit target = true)
    (hnone : ∀ r ∈ db, ¬(r.user_id = caller ∧ r.id = strToNat target)) :
    remind_cancel caller target db jobs =
      (db,
       jobs.filter (fun j => !(j.name == "reminder_" ++ toString (strToNat target))),
       CancelReply.notFound) := by
  have hne : (target == "") = false := by
    rcases h : target == "" with _ | _
    · rfl
    · have ht : target = "" := eq_of_beq h
      rw [ht] at hdig
      exact absurd hdig (by decide)
  have hcount : db.countP
      (fun r => r.user_id == caller && r.id == strToNat target) = 0 := by
    rw [List.countP_eq_zero]
    intro r hr
    have h1 := hnone r hr
    simp only [Bool.and_eq_true, beq_iff_eq]
    tauto
  have hfilter : db.filter
      (fun r => !(r.user_id == caller && r.id == strToNat target)) = db := by
    rw [List.filter_eq_self]
    intro r hr
    have h1 := hnone r hr
    simp only [Bool.not_eq_true', Bool.and_eq_false_iff]
    by_cases h2 : r.user_id = caller
    · right
      simp only [beq_eq_false_iff_ne, ne_eq]
      tauto
    · left
      simp only [beq_eq_false_iff_ne, ne_eq]
      exact h2
  rw [remind_cancel, hne, hdig]
  simp only [Bool.not_true, Bool.or_false, if_false, hfilter, hcount]
  rfl

/-- C6 (amended): cancellation is owner-scoped only at the store: when no row
with the target id belongs to the caller, no row is deleted and "not found"
is reported, but the job-queue disarm step still runs unconditionally and
removes every timer registered under that id, whoever owns it. -/
theorem remind_cancel_owner_scoped_store_only (caller : Nat) (target : String)
    (db : List ReminderRow) (jobs : List Job)
    (hdig : pyIsdigit target = true)
    (hnone : ∀ r ∈ db, ¬(r.user_id = caller ∧ r.id = strToNat target)) :
    remind_cancel caller target db jobs =
      (db,
       jobs.filter (fun j => !(j.name == "reminder_" ++ toString (strToNat target))),
       CancelReply.notFound) :=
  remind_cancel_unowned_eq caller target db jobs hdig hnone

/-- C6 witness: caller 1 targets id 1 owned by user 2; the store is unchanged
and "not found" reported. -/
theorem remind_cancel_owner_scoped_store_only_witness :
    remind_cancel 1 "1" [⟨1, 2, "T", "secret", "c"⟩]
        [⟨"reminder_1", 50, ⟨1, 2, "secret"⟩⟩] =
      ([⟨1, 2, "T", "secret", "c"⟩],
       ([⟨"reminder_1", 50, ⟨1, 2, "secret"⟩⟩] : List Job).filter
         (fun j => !(j.name == "reminder_" ++ toString (strToNat "1"))),
       CancelReply.notFound) :=
  remind_cancel_owner_scoped_store_only 1 "1" [⟨1, 2, "T", "secret", "c"⟩]
    [⟨"reminder_1", 50, ⟨1, 2, "secret"⟩⟩] (by decide) (by decide)

/-! ### C8 — cancelling a nonexistent reminder is a tolerated no-op -/

/-- C8 counterexample: the claim quantifies over every id with no matching
row for the caller; taking caller 3 and id 2 whose row belongs to user 4,
`remind_cancel` does report "not found", yet it removes user 4's armed timer
— a state change, so "causes no state change" fails as stated. -/
theorem remind_cancel_nonexistent_changes_state :
    (remind_cancel 3 "2" [⟨2, 4, "T", "x", "c"⟩]
        [⟨"reminder_2", 9, ⟨2, 4, "x"⟩⟩]).2.1 = [] ∧
    ([⟨"reminder_2", 9, ⟨2, 4, "x"⟩⟩] : List Job) ≠ [] ∧
    (remind_cancel 3 "2" [⟨2, 4, "T", "x", "c"⟩]
        [⟨"reminder_2", 9, ⟨2, 4, "x"⟩⟩]).2.2 = CancelReply.notFound := by
  decide

/-- C8 (amended): cancelling a reminder id that is already deleted or never
existed — no matching row for the caller AND no armed timer under that id —
returns "not found" and causes no state change at all; disarming the
non-existent timer is a silent no-op. -/
theorem remind_cancel_nonexistent_noop (caller : Nat) (target : String)
    (db : List ReminderRow) (jobs : List Job)
    (hdig : pyIsdigit target = true)
    (hnorow : ∀ r ∈ db, ¬(r.user_id = caller ∧ r.id = strToNat target))
    (hnojob : ∀ j ∈ jobs, j.name ≠ "reminder_" ++ toString (strToNat target)) :
    remind_cancel caller target db jobs = (db, jobs, CancelReply.notFound) := by
  rw [remind_cancel_unowned_eq caller target db jobs hdig hnorow]
  have : jobs.filter
      (fun j => !(j.name == "reminder_" ++ toString (strToNat target))) = jobs := by
    rw [List.filter_eq_self]
    intro j hj
    simpa using hnojob j hj
  rw [this]

/-- C8 witness: cancelling id 9 when no row and no timer exist anywhere. -/
theorem remind_cancel_nonexistent_noop_witness :
    remind_cancel 3 "9" [⟨2, 4, "T", "x", "c"⟩] [⟨"reminder_2", 9, ⟨2, 4, "x"⟩⟩] =
      ([⟨2, 4, "T", "x", "c"⟩], [⟨"reminder_2", 9, ⟨2, 4, "x"⟩⟩], CancelReply.notFound) :=
  remind_cancel_nonexistent_noop 3 "9" [⟨2, 4, "T", "x", "c"⟩]
    [⟨"reminder_2", 9, ⟨2, 4, "x"⟩⟩] (by decide) (by decide) (by decide)

/-! ### Recovery: `schedule_pending_reminders` (C3, C4) -/

/-- When every row's timestamp parses, recovery never aborts and simply
appends one job per future row, in scan order. -/
theorem schedule_pending_reminders_ok (fromiso : String → Option Int)
    (now : Int) (db : List ReminderRow)
    (h : ∀ r ∈ db, (fromiso r.remind_at).isSome) :
    ∀ jobs : List Job,
      schedule_pending_reminders fromiso now db jobs =
        (jobs ++ recJobs fromiso now db, none) := by
  induction db with
  | nil =>
    intro jobs
    simp [schedule_pending_reminders, recJobs]
  | cons r rest ih =>
    intro jobs
    have hr := h r (List.mem_cons_self r rest)
    have hrest : ∀ x ∈ rest, (fromiso x.remind_at).isSome :=
      fun x hx => h x (List.mem_cons_of_mem r hx)
    rcases ht : fromiso r.remind_at with _ | t
    · rw [ht] at hr
      simp at hr
    · simp only [schedule_pending_reminders, ht]
      by_cases hlt : t < now
      · rw [if_pos hlt, ih hrest jobs]
        simp [recJobs, ht, if_pos hlt]
      · rw [if_neg hlt, ih hrest _]
        simp [recJobs, ht, if_neg hlt, schedule_reminder, run_once,
          List.append_assoc]

/-- C3: recovery reads every row and, when the store is well formed (all
timestamps parse, ids unique as the PRIMARY KEY guarantees), a timer is armed
for a stored reminder if and only if its `remind_at` has not strictly passed
(`now ≤ remind_at`); recovery never aborts and never writes the store, so
past rows are left untouched and unarmed. -/
theorem recovery_arms_iff_future (fromiso : String → Option Int) (now : Int)
    (db : List ReminderRow)
    (h1 : ∀ r ∈ db, (fromiso r.remind_at).isSome)
    (h2 : (db.map (fun r => r.id)).Nodup)
    (r : ReminderRow) (hr : r ∈ db) :
    ((∃ j ∈ (schedule_pending_reminders fromiso now db []).1,
        j.data.reminder_id = r.id) ↔
      (∃ t, fromiso r.remind_at = some t ∧ now ≤ t)) ∧
    (schedule_pending_reminders fromiso now db []).2 = none := by
  rw [schedule_pending_reminders_ok fromiso now db h1 []]
  refine ⟨?_, rfl⟩
  simp only [List.nil_append]
  constructor
  · rintro ⟨j, hj, hid⟩
    rw [recJobs, List.mem_filterMap] at hj
    obtain ⟨r2, hr2, hfr2⟩ := hj
    rcases ht2 : fromiso r2.remind_at with _ | t2
    · rw [ht2] at hfr2
      simp at hfr2
    · rw [ht2] at hfr2
      by_cases hlt : t2 < now
      · rw [Option.some_bind, if_pos hlt] at hfr2
        simp at hfr2
      · rw [Option.some_bind, if_neg hlt] at hfr2
        have hj2 := hfr2
        rw [Option.some_inj] at hj2
        have hidr : r2.id = r.id := by
          rw [← hj2] at hid
          exact hid
        have heq : r2 = r := List.inj_on_of_nodup_map h2 hr2 hr hidr
        subst heq
        exact ⟨t2, ht2, le_of_not_lt hlt⟩
  · rintro ⟨t, ht, hle⟩
    refine ⟨⟨"reminder_" ++ toString r.id, max 0 (t - now),
      ⟨r.id, r.user_id, r.text⟩⟩, ?_, rfl⟩
    rw [recJobs, List.mem_filterMap]
    refine ⟨r, hr, ?_⟩
    rw [ht, Option.some_bind, if_neg (not_lt.mpr hle)]

/-- C3 witness: two stored rows, one past due (at 10 < 50) and one future
(at 90 ≥ 50); after recovery the future one has an armed timer. -/
theorem recovery_arms_iff_future_witness :
    ∃ j ∈ (schedule_pending_reminders
        (fun s => if s == "90" then some 90 else if s == "10" then some 10 else none)
        50 [⟨1, 7, "10", "a", "c"⟩, ⟨2, 8, "90", "b", "c"⟩] []).1,
      j.data.reminder_id = 2 :=
  ((recovery_arms_iff_future
      (fun s => if s == "90" then some 90 else if s == "10" then some 10 else none)
      50 [⟨1, 7, "10", "a", "c"⟩, ⟨2, 8, "90", "b", "c"⟩]
      (by decide) (by decide) ⟨2, 8, "90", "b", "c"⟩ (by decide)).1).mpr
    ⟨90, by decide, by decide⟩

/-- C4 counterexample: a store holding a malformed row (scan position 1) and
a well-formed future row (position 2).  Recovery aborts on the malformed
timestamp: NO timer at all is armed — in particular the well-formed future
row gets none — refuting the claim that a bad row does not abort recovery of
the remaining rows. -/
theorem recovery_bad_row_strands_later_rows :
    (schedule_pending_reminders
        (fun s => if s == "T100" then some 100 else none) 0
        [⟨1, 7, "garbage", "a", "c"⟩, ⟨2, 8, "T100", "b", "c"⟩] []).1 = [] ∧
    (fun s => if s == "T100" then some (100 : Int) else none) "T100" = some 100 ∧
    (0 : Int) ≤ 100 ∧
    (schedule_pending_reminders
        (fun s => if s == "T100" then some 100 else none) 0
        [⟨1, 7, "garbage", "a", "c"⟩, ⟨2, 8, "T100", "b", "c"⟩] []).2 =
      some "garbage" := by
  decide

/-- C4 (amended): a malformed `remind_at` raises `ValueError` inside the
recovery loop and the exception propagates (there is no per-row handler):
rows scanned before the bad row are armed as usual, while the bad row and
every row after it are skipped entirely. -/
theorem recovery_aborts_on_bad_row (fromiso : String → Option Int) (now : Int)
    (pre post : List ReminderRow) (bad : ReminderRow) (jobs : List Job)
    (hpre : ∀ r ∈ pre, (fromiso r.remind_at).isSome)
    (hbad : fromiso bad.remind_at = none) :
    schedule_pending_reminders fromiso now (pre ++ bad :: post) jobs =
      (jobs ++ recJobs fromiso now pre, some bad.remind_at) := by
  induction pre generalizing jobs with
  | nil =>
    simp [schedule_pending_reminders, hbad, recJobs]
  | cons r rest ih =>
    have hr := hpre r (List.mem_cons_self r rest)
    have hrest : ∀ x ∈ rest, (fromiso x.remind_at).isSome :=
      fun x hx => hpre x (List.mem_cons_of_mem r hx)
    rcases ht : fromiso r.remind_at with _ | t
    · rw [ht] at hr
      simp at hr
    · simp only [List.cons_append, schedule_pending_reminders, ht, List.append_eq]
      by_cases hlt : t < now
      · rw [if_pos hlt, ih _ hrest]
        simp [recJobs, ht, if_pos hlt]
      · rw [if_neg hlt, ih _ hrest]
        simp [recJobs, ht, if_neg hlt, schedule_reminder, run_once,
          List.append_assoc]

/-- C4 witness: a good future row before the bad row is armed; the good
future row after it is not. -/
theorem recovery_aborts_on_bad_row_witness :
    schedule_pending_reminders (fun s => if s == "T5" then some 5 else none) 0
        ([⟨3, 9, "T5", "p", "c"⟩] ++ ⟨1, 7, "nope", "a", "c"⟩ ::
          [⟨2, 8, "T5", "b", "c"⟩]) [] =
      ([] ++ recJobs (fun s => if s == "T5" then some 5 else none) 0
        [⟨3, 9, "T5", "p", "c"⟩], some "nope") :=
  recovery_aborts_on_bad_row (fun s => if s == "T5" then some 5 else none) 0
    [⟨3, 9, "T5", "p", "c"⟩] [⟨2, 8, "T5", "b", "c"⟩]
    ⟨1, 7, "nope", "a", "c"⟩ [] (by decide) (by decide)

/-! ### C9 — listing is owner-filtered and ordered by due time -/

/-- C9: `remind_list` returns exactly the caller's reminders (a permutation
of the owner-filtered table, every element owned by the caller), ordered so
that each element's `remind_at` is ≤ the next one's. -/
theorem remind_list_owner_sorted (uid : Nat) (db : List ReminderRow) :
    (remind_list uid db).Perm (db.filter (fun r => r.user_id == uid)) ∧
    (∀ r ∈ remind_list uid db, r.user_id = uid) ∧
    List.Chain' (fun a b => a.remind_at ≤ b.remind_at) (remind_list uid db) := by
  refine ⟨List.mergeSort_perm _ _, ?_, ?_⟩
  · intro r hr
    have hm : r ∈ db.filter (fun r => r.user_id == uid) :=
      (List.mergeSort_perm _ _).mem_iff.mp hr
    have := List.of_mem_filter hm
    simpa using this
  · have hp := @List.sorted_mergeSort ReminderRow
      (fun a b => decide (a.remind_at ≤ b.remind_at))
      (fun a b c h1 h2 => by
        simp only [decide_eq_true_eq] at h1 h2 ⊢
        exact le_trans h1 h2)
      (fun a b => by
        simp only [Bool.or_eq_true, decide_eq_true_eq]
        exact le_total _ _)
      (db.filter (fun r => r.user_id == uid))
    have hp2 : List.Pairwise (fun a b : ReminderRow => a.remind_at ≤ b.remind_at)
        (remind_list uid db) := by
      refine List.Pairwise.imp ?_ hp
      intro a b h
      simpa using h
    exact hp2.chain'

/-! ### C7 — creation-time validation is atomic -/

/-- C7: whenever a creation request fails validation — fewer than two
arguments, empty reminder text after stripping, or a due-time string
`parse_remind_time` rejects — `remind_add` reports an error reply
synchronously and leaves both the reminders table and the job queue exactly
as they were: no row is persisted and no timer is armed. -/
theorem remind_add_rejects_atomically (now : Int) (nowIso : String) (uid : Nat)
    (args : List String) (db : List ReminderRow) (jobs : List Job) (nextId : Nat)
    (h : args.length < 2 ∨ pyStrip (String.intercalate " " (args.drop 2)) = "" ∨
      parse_remind_time (String.intercalate " " (args.take 2)) = none) :
    (remind_add now nowIso uid args db jobs nextId).1 = db ∧
    (remind_add now nowIso uid args db jobs nextId).2.1 = jobs ∧
    (remind_add now nowIso uid args db jobs nextId).2.2 ≠ AddReply.ok := by
  by_cases h1 : args.length < 2
  · simp only [remind_add, if_pos h1]
    exact ⟨trivial, trivial, by decide⟩
  · by_cases h2 : pyStrip (String.intercalate " " (args.drop 2)) = ""
    · simp only [remind_add, if_neg h1, if_pos h2]
      exact ⟨trivial, trivial, by decide⟩
    · have h3 : parse_remind_time (String.intercalate " " (args.take 2)) = none := by
        rcases h with h | h | h
        · exact absurd h h1
        · exact absurd h h2
        · exact h
      simp only [remind_add, if_neg h1, if_neg h2, h3]
      exact ⟨trivial, trivial, by decide⟩

/-- C7 witness: `/remind_add 2026-02-30 10:00 standup` (a shape-correct but
calendar-invalid due time) is rejected and persists nothing. -/
theorem remind_add_rejects_atomically_witness :
    (remind_add 0 "now" 7 ["2026-02-30", "10:00", "standup"] [] [] 1).1 = [] ∧
    (remind_add 0 "now" 7 ["2026-02-30", "10:00", "standup"] [] [] 1).2.1 = [] ∧
    (remind_add 0 "now" 7 ["2026-02-30", "10:00", "standup"] [] [] 1).2.2 ≠
      AddReply.ok :=
  remind_add_rejects_atomically 0 "now" 7 ["2026-02-30", "10:00", "standup"]
    [] [] 1 (Or.inr (Or.inr (by decide)))

/-! ### C10 — `parse_remind_time` totality and minute-precision UTC output -/

/-- Digits render as digits. -/
theorem digitChar_isDigit (k : Nat) (hk : k ≤ 9) : (digitChar k).isDigit = true := by
  interval_cases k <;> decide

/-- `digitVal` inverts `digitChar` on digit values. -/
theorem digitVal_digitChar (k : Nat) (hk : k ≤ 9) : digitVal (digitChar k) = k := by
  interval_cases k <;> decide

/-- Digit characters are not whitespace. -/
theorem isPySpace_digitChar (k : Nat) (hk : k ≤ 9) :
    isPySpace (digitChar k) = false := by
  interval_cases k <;> decide

/-- Evaluation of a two-digit field on an in-range zero-padded input. -/
theorem p2Field_eval (lo hi a b : Nat) (rest : List Char)
    (ha : a ≤ 9) (hb : b ≤ 9) (h1 : lo ≤ 10 * a + b) (h2 : 10 * a + b ≤ hi) :
    p2Field lo hi (digitChar a :: digitChar b :: rest) = some (10 * a + b, rest) := by
  have hc : (decide (lo ≤ 10 * a + b) && decide (10 * a + b ≤ hi)) = true := by
    simp [h1, h2]
  simp only [p2Field, digitChar_isDigit a ha, digitChar_isDigit b hb,
    digitVal_digitChar a ha, digitVal_digitChar b hb, Bool.true_and, hc, if_true]

/-- Evaluation of `%Y` on four digits. -/
theorem pYear_eval (a b c d : Nat) (rest : List Char)
    (ha : a ≤ 9) (hb : b ≤ 9) (hc : c ≤ 9) (hd : d ≤ 9) :
    pYear (digitChar a :: digitChar b :: digitChar c :: digitChar d :: rest) =
      some (1000 * a + 100 * b + 10 * c + d, rest) := by
  have hcond : ((digitChar a).isDigit && (digitChar b).isDigit &&
      (digitChar c).isDigit && (digitChar d).isDigit) = true := by
    simp [digitChar_isDigit a ha, digitChar_isDigit b hb,
      digitChar_isDigit c hc, digitChar_isDigit d hd]
  simp only [pYear, hcond, if_true, digitVal_digitChar a ha,
    digitVal_digitChar b hb, digitVal_digitChar c hc, digitVal_digitChar d hd]

/-- The literal dash consumes. -/
theorem expectDash_dash (rest : List Char) : expectDash ('-' :: rest) = some rest :=
  rfl

/-- `%m-` on a zero-padded in-range month. -/
theorem pMonthDash_eval (a b : Nat) (rest : List Char) (ha : a ≤ 9) (hb : b ≤ 9)
    (h1 : 1 ≤ 10 * a + b) (h2 : 10 * a + b ≤ 12) :
    pMonthDash (digitChar a :: digitChar b :: '-' :: rest) = some (10 * a + b, rest) := by
  simp only [pMonthDash, p2Field_eval 1 12 a b ('-' :: rest) ha hb h1 h2]
  rfl

/-- `%d\s+` on a zero-padded in-range day followed by one space and a digit. -/
theorem pDaySpaces_eval (a b e : Nat) (rest : List Char) (ha : a ≤ 9) (hb : b ≤ 9)
    (he : e ≤ 9) (h1 : 1 ≤ 10 * a + b) (h2 : 10 * a + b ≤ 31) :
    pDaySpaces (digitChar a :: digitChar b :: ' ' :: digitChar e :: rest) =
      some (10 * a + b, digitChar e :: rest) := by
  simp only [pDaySpaces, p2Field_eval 1 31 a b (' ' :: digitChar e :: rest) ha hb h1 h2]
  rw [if_pos (by decide : isPySpace ' ' = true), List.dropWhile_cons,
    isPySpace_digitChar e he]
  simp

/-- `%H:` on a zero-padded in-range hour. -/
theorem pHourColon_eval (a b : Nat) (rest : List Char) (ha : a ≤ 9) (hb : b ≤ 9)
    (h2 : 10 * a + b ≤ 23) :
    pHourColon (digitChar a :: digitChar b :: ':' :: rest) = some (10 * a + b, rest) := by
  simp only [pHourColon, p2Field_eval 0 23 a b (':' :: rest) ha hb (Nat.zero_le _) h2]
  rfl

/-- `%M` at end of input on a zero-padded in-range minute. -/
theorem pMinuteEnd_eval (a b : Nat) (ha : a ≤ 9) (hb : b ≤ 9)
    (h2 : 10 * a + b ≤ 59) :
    pMinuteEnd [digitChar a, digitChar b] = some (10 * a + b) := by
  simp only [pMinuteEnd, p2Field_eval 0 59 a b [] ha hb (Nat.zero_le _) h2]

/-- Every month has at most 31 days. -/
theorem daysInMonth_le (y m : Nat) : daysInMonth y m ≤ 31 := by
  unfold daysInMonth
  split
  · split <;> omega
  · split <;> omega

/-- The full regex on a zero-padded, in-range input. -/
theorem parseFields_padded (y1 y2 y3 y4 m1 m2 d1 d2 h1 h2 n1 n2 : Nat)
    (hy1 : y1 ≤ 9) (hy2 : y2 ≤ 9) (hy3 : y3 ≤ 9) (hy4 : y4 ≤ 9)
    (hm1 : m1 ≤ 9) (hm2 : m2 ≤ 9) (hd1 : d1 ≤ 9) (hd2 : d2 ≤ 9)
    (hh1 : h1 ≤ 9) (hh2 : h2 ≤ 9) (hn1 : n1 ≤ 9) (hn2 : n2 ≤ 9)
    (hm : 1 ≤ 10 * m1 + m2) (hmr : 10 * m1 + m2 ≤ 12)
    (hd : 1 ≤ 10 * d1 + d2) (hdr : 10 * d1 + d2 ≤ 31)
    (hhr : 10 * h1 + h2 ≤ 23) (hnr : 10 * n1 + n2 ≤ 59) :
    parseFields (digitChar y1 :: digitChar y2 :: digitChar y3 :: digitChar y4 ::
        '-' :: digitChar m1 :: digitChar m2 :: '-' :: digitChar d1 :: digitChar d2 ::
        ' ' :: digitChar h1 :: digitChar h2 :: ':' :: digitChar n1 :: [digitChar n2]) =
      some (1000 * y1 + 100 * y2 + 10 * y3 + y4, 10 * m1 + m2, 10 * d1 + d2,
        10 * h1 + h2, 10 * n1 + n2) := by
  simp only [parseFields,
    pYear_eval y1 y2 y3 y4 _ hy1 hy2 hy3 hy4,
    expectDash_dash,
    pMonthDash_eval m1 m2 _ hm1 hm2 hm hmr,
    pDaySpaces_eval d1 d2 h1 _ hd1 hd2 hh1 hd hdr,
    pHourColon_eval h1 h2 _ hh1 hh2 hhr,
    pMinuteEnd_eval n1 n2 hn1 hn2 hnr]

/-- C10 counterexample: `"2026-02-30 10:00"` matches the typographic
`YYYY-MM-DD HH:MM` shape yet `parse_remind_time` returns `None` (the
`datetime` constructor rejects February 30), so "returns None exactly when
the string does not match the format" fails as stated. -/
theorem parse_remind_time_shape_not_iff :
    matchesFmtShape "2026-02-30 10:00" = true ∧
    parse_remind_time "2026-02-30 10:00" = none := by
  decide

/-- C10 (amended): `parse_remind_time` is total with Option-style failure,
following CPython `strptime` semantics for `"%Y-%m-%d %H:%M"` rather than
the bare typographic shape: (1) every `Some` result is a timezone-aware UTC
datetime with seconds and microseconds zero; (2) every zero-padded
`YYYY-MM-DD HH:MM` string whose date is calendar-valid (year ≥ 1, month
1–12, day within the month) and whose time fields are in range (hour ≤ 23,
minute ≤ 59) parses to exactly that minute-precision UTC datetime; (3) some
strings outside the typographic shape (e.g. non-zero-padded fields) also
parse. -/
theorem parse_remind_time_strptime_semantics :
    (∀ s t, parse_remind_time s = some t →
      t.second = 0 ∧ t.microsecond = 0 ∧ t.tzinfo = some Tz.utc) ∧
    (∀ y m d h mi : Nat, 1 ≤ y → y ≤ 9999 → 1 ≤ m → m ≤ 12 → 1 ≤ d →
      d ≤ daysInMonth y m → h ≤ 23 → mi ≤ 59 →
      parse_remind_time (renderPadded y m d h mi) =
        some ⟨y, m, d, h, mi, 0, 0, some Tz.utc⟩) ∧
    (∃ s, matchesFmtShape s = false ∧ (parse_remind_time s).isSome = true) := by
  refine ⟨?_, ?_, ⟨"2026-2-15 14:30", by decide, by decide⟩⟩
  · intro s t h
    rcases hs : strptime s with _ | u
    · simp only [parse_remind_time, hs] at h
      exact Option.noConfusion h
    · simp only [parse_remind_time, hs, Option.some_inj] at h
      rcases hp : parseFields s.data with _ | q
      · simp only [strptime, hp] at hs
        exact Option.noConfusion hs
      · obtain ⟨y, m, d, hh, mi⟩ := q
        simp only [strptime, hp] at hs
        split at hs
        · rw [Option.some_inj] at hs
          rw [← h, ← hs]
          exact ⟨rfl, rfl, rfl⟩
        · exact Option.noConfusion hs
  · intro y m d h mi hy1 hy2 hm1 hm2 hd1 hd2 hh hmi
    have hd31 : d ≤ 31 := le_trans hd2 (daysInMonth_le y m)
    have hdata : (renderPadded y m d h mi).data =
        digitChar (y / 1000 % 10) :: digitChar (y / 100 % 10) ::
        digitChar (y / 10 % 10) :: digitChar (y % 10) ::
        '-' :: digitChar (m / 10 % 10) :: digitChar (m % 10) ::
        '-' :: digitChar (d / 10 % 10) :: digitChar (d % 10) ::
        ' ' :: digitChar (h / 10 % 10) :: digitChar (h % 10) ::
        ':' :: digitChar (mi / 10 % 10) :: [digitChar (mi % 10)] := by
      simp [renderPadded, pad4, pad2]
    have hfields : parseFields (renderPadded y m d h mi).data =
        some (y, m, d, h, mi) := by
      rw [hdata, parseFields_padded (y / 1000 % 10) (y / 100 % 10) (y / 10 % 10)
        (y % 10) (m / 10 % 10) (m % 10) (d / 10 % 10) (d % 10) (h / 10 % 10)
        (h % 10) (mi / 10 % 10) (mi % 10) (by omega) (by omega) (by omega)
        (by omega) (by omega) (by omega) (by omega) (by omega) (by omega)
        (by omega) (by omega) (by omega) (by omega) (by omega) (by omega)
        (by omega) (by omega) (by omega)]
      simp only [Option.some_inj, Prod.mk.injEq]
      refine ⟨by omega, by omega, by omega, by omega, by omega⟩
    have hstr : strptime (renderPadded y m d h mi) =
        some ⟨y, m, d, h, mi, 0, 0, none⟩ := by
      simp only [strptime, hfields]
      rw [if_pos ⟨hy1, hd1, hd2⟩]
    simp only [parse_remind_time, hstr]

/-- C10 witness: the padded string for 2026-02-15 14:30 parses to the
minute-precision aware UTC datetime. -/
theorem parse_remind_time_strptime_semantics_witness :
    parse_remind_time (renderPadded 2026 2 15 14 30) =
      some ⟨2026, 2, 15, 14, 30, 0, 0, some Tz.utc⟩ :=
  parse_remind_time_strptime_semantics.2.1 2026 2 15 14 30 (by decide) (by decide)
    (by decide) (by decide) (by decide) (by decide) (by decide) (by decide)

end TgBot
